import Mathlib

/-!
Shallow embedding of the IMX477 sensor-driver control core
(`imx477_documentado.c`): register bus sequencing, frame-length /
long-exposure-shift computation, control-range adaptation, format and
mode resolution, and the streaming state machine, together with proofs
of the specification's claims about them.
-/

namespace IMX477

/- ── Constants, from the `#define` block at the top of the driver. ── -/

def IMX477_REG_MODE_SELECT : Nat := 0x0100
def IMX477_MODE_STANDBY : Nat := 0x00
def IMX477_MODE_STREAMING : Nat := 0x01
def IMX477_REG_ORIENTATION : Nat := 0x0101
def IMX477_PIXEL_RATE : Nat := 840000000
def IMX477_REG_FRAME_LENGTH : Nat := 0x0340
def IMX477_FRAME_LENGTH_MAX : Nat := 0xffdc
def IMX477_REG_LINE_LENGTH : Nat := 0x0342
def IMX477_LINE_LENGTH_MAX : Nat := 0xfff0
def IMX477_LONG_EXP_SHIFT_MAX : Nat := 7
def IMX477_LONG_EXP_SHIFT_REG : Nat := 0x3100
def IMX477_REG_EXPOSURE : Nat := 0x0202
def IMX477_EXPOSURE_OFFSET : Int := 22
def IMX477_REG_ANALOG_GAIN : Nat := 0x0204
def IMX477_REG_DIGITAL_GAIN : Nat := 0x020e
def IMX477_REG_TEST_PATTERN : Nat := 0x0600
def IMX477_REG_TEST_PATTERN_R : Nat := 0x0602
def IMX477_REG_TEST_PATTERN_GR : Nat := 0x0604
def IMX477_REG_TEST_PATTERN_B : Nat := 0x0606
def IMX477_REG_TEST_PATTERN_GB : Nat := 0x0608
def IMX477_REG_MC_MODE : Nat := 0x3f0b
def IMX477_REG_MS_SEL : Nat := 0x3041
def IMX477_REG_XVS_IO_CTRL : Nat := 0x3040
def IMX477_REG_EXTOUT_EN : Nat := 0x4b81

/- Linux error codes, as the negative `int` values the driver returns. -/
def EIO_val : Int := 5
def EINVAL : Int := 22

/- ── Register bus model. ──

The serial bus is modelled by a failure oracle `fail : Nat → Bool`
telling which write transactions (numbered from device attach) fail,
and a bus state recording how many transactions were attempted and
which `(address, length, value)` writes were actually transmitted. -/

structure BusState where
  nops : Nat
  written : List (Nat × Nat × Nat)
  deriving Repr, DecidableEq

/-- `imx477_write_reg`: one bus transaction writing the big-endian
encoded value.  `len > 4` is rejected with `-EINVAL`; a transport
failure yields `-EIO_val`; on success the transmitted value is the low
`8*len` bits of `val` (the driver shifts `val` so that `len`
significant bytes occupy the transmitted field). -/
def imx477_write_reg (fail : Nat → Bool) (s : BusState)
    (reg len val : Nat) : Int × BusState :=
  if len > 4 then (-EINVAL, s)
  else if fail s.nops then (-EIO_val, { s with nops := s.nops + 1 })
  else (0, { nops := s.nops + 1,
             written := s.written ++ [(reg, len, val % 2 ^ (8 * len))] })

/-- One entry of a register program: `struct imx477_reg`. -/
structure Reg where
  address : Nat
  val : Nat
  deriving Repr, DecidableEq

/-- `imx477_write_regs`: write a list of one-byte registers in order,
aborting at the first failure and returning its error code. -/
def imx477_write_regs (fail : Nat → Bool) (s : BusState) :
    List Reg → Int × BusState
  | [] => (0, s)
  | r :: rest =>
    let out := imx477_write_reg fail s r.address 1 r.val
    if out.1 ≠ 0 then out
    else imx477_write_regs fail out.2 rest

/- ── Frame length and long-exposure shift. ── -/

/-- The `while (val > IMX477_FRAME_LENGTH_MAX)` loop body of
`imx477_set_frame_length`: halve the value and count the shifts. -/
def shiftLoop (val shift : Nat) : Nat × Nat :=
  if h : val > IMX477_FRAME_LENGTH_MAX then shiftLoop (val / 2) (shift + 1)
  else (val, shift)
  termination_by val
  decreasing_by
    exact Nat.div_lt_self (Nat.lt_of_le_of_lt (Nat.zero_le _) h) (by decide)

/-- `imx477_set_frame_length`: compute the long-exposure shift, write
the shifted frame length to the 16-bit frame-length register, then the
shift count to the long-exposure-shift register.  Returns the error
code, the bus state, and the driver's stored `long_exp_shift`. -/
def imx477_set_frame_length (fail : Nat → Bool) (s : BusState)
    (val : Nat) : Int × BusState × Nat :=
  let vs := shiftLoop val 0
  let out := imx477_write_reg fail s IMX477_REG_FRAME_LENGTH 2 vs.1
  if out.1 ≠ 0 then (out.1, out.2, vs.2)
  else
    let out2 := imx477_write_reg fail out.2 IMX477_LONG_EXP_SHIFT_REG 1 vs.2
    (out2.1, out2.2, vs.2)

/-- The all-success transport oracle. -/
def noFail : Nat → Bool := fun _ => false

/- ── Lemmas about the register sequencer. ── -/

theorem write_regs_ok (fail : Nat → Bool) (s : BusState) (regs : List Reg)
    (h : ∀ i < regs.length, fail (s.nops + i) = false) :
    imx477_write_regs fail s regs =
      (0, { nops := s.nops + regs.length,
            written := s.written ++
              regs.map (fun r => (r.address, 1, r.val % 256)) }) := by
  induction regs generalizing s with
  | nil => simp [imx477_write_regs]
  | cons r rest ih =>
    have h0 : fail s.nops = false := by
      have := h 0 (Nat.succ_pos _)
      simpa using this
    rw [imx477_write_regs, imx477_write_reg]
    simp only [h0, show ¬(1 > 4) by decide, if_false, Bool.false_eq_true]
    rw [if_neg (by simp)]
    rw [ih]
    · simp [List.append_assoc]
      omega
    · intro i hi
      have := h (i + 1) (by simpa using Nat.succ_lt_succ hi)
      simpa [Nat.add_assoc, Nat.add_comm 1 i] using this

theorem write_regs_fail (fail : Nat → Bool) (s : BusState) (regs : List Reg)
    (i : Nat) (hi : i < regs.length)
    (hbefore : ∀ j < i, fail (s.nops + j) = false)
    (hfail : fail (s.nops + i) = true) :
    imx477_write_regs fail s regs =
      (-EIO_val, { nops := s.nops + i + 1,
                   written := s.written ++
                     (regs.take i).map (fun r => (r.address, 1, r.val % 256)) }) := by
  induction regs generalizing s i with
  | nil => exact absurd hi (Nat.not_lt_zero _)
  | cons r rest ih =>
    cases i with
    | zero =>
      have h0 : fail s.nops = true := by simpa using hfail
      simp [imx477_write_regs, imx477_write_reg, h0, EIO_val]
    | succ k =>
      have h0 : fail s.nops = false := by
        have := hbefore 0 (Nat.succ_pos _)
        simpa using this
      rw [imx477_write_regs, imx477_write_reg]
      simp only [h0, show ¬(1 > 4) by decide, if_false, Bool.false_eq_true]
      rw [if_neg (by simp)]
      rw [ih _ k (by simpa using Nat.lt_of_succ_lt_succ hi)]
      · simp [List.append_assoc]
        omega
      · intro j hj
        have := hbefore (j + 1) (Nat.succ_lt_succ hj)
        simpa [Nat.add_assoc, Nat.add_comm 1 j] using this
      · have := hfail
        simpa [Nat.add_assoc, Nat.add_comm 1 k] using this

/- ── Lemmas about the long-exposure-shift loop. ── -/

theorem shiftLoop_spec (val shift : Nat) :
    shift ≤ (shiftLoop val shift).2 ∧
    (shiftLoop val shift).1 = val / 2 ^ ((shiftLoop val shift).2 - shift) ∧
    (shiftLoop val shift).1 ≤ IMX477_FRAME_LENGTH_MAX ∧
    ∀ t, shift ≤ t → t < (shiftLoop val shift).2 →
      IMX477_FRAME_LENGTH_MAX < val / 2 ^ (t - shift) := by
  induction val, shift using shiftLoop.induct with
  | case1 val shift h ih =>
    rw [shiftLoop]
    simp only [dif_pos h]
    obtain ⟨ih1, ih2, ih3, ih4⟩ := ih
    refine ⟨Nat.le_of_succ_le ih1, ?_, ih3, ?_⟩
    · rw [ih2]
      have hs : (shiftLoop (val / 2) (shift + 1)).2 - shift =
          ((shiftLoop (val / 2) (shift + 1)).2 - (shift + 1)) + 1 := by omega
      rw [hs, pow_succ, Nat.mul_comm, ← Nat.div_div_eq_div_mul]
    · intro t ht1 ht2
      rcases Nat.eq_or_lt_of_le ht1 with heq | hlt
      · simpa [← heq] using h
      · have := ih4 t hlt ht2
        have hs : t - shift = (t - (shift + 1)) + 1 := by omega
        rw [hs, pow_succ, Nat.mul_comm, ← Nat.div_div_eq_div_mul]
        exact this
  | case2 val shift h =>
    rw [shiftLoop]
    simp only [dif_neg h]
    exact ⟨Nat.le_refl _, by simp, Nat.le_of_not_lt h, fun t ht1 ht2 => absurd ht2 (by omega)⟩

theorem shiftLoop_le (val : Nat) (h : val ≤ IMX477_FRAME_LENGTH_MAX) :
    shiftLoop val 0 = (val, 0) := by
  rw [shiftLoop]
  simp only [dif_neg (Nat.not_lt.mpr h)]

theorem shiftLoop_shift_le_seven (L : Nat)
    (hL : L ≤ 128 * IMX477_FRAME_LENGTH_MAX) : (shiftLoop L 0).2 ≤ 7 := by
  by_contra hgt
  have := (shiftLoop_spec L 0).2.2.2 7 (Nat.zero_le _) (by omega)
  simp only [Nat.sub_zero] at this
  have h7 : L / 2 ^ 7 ≤ IMX477_FRAME_LENGTH_MAX := by
    rw [Nat.div_le_iff_le_mul_add_pred (by decide)]
    simp only [IMX477_FRAME_LENGTH_MAX] at hL ⊢
    omega
  omega

/-- C1: for every frame length `L ≤ 128 * 0xffdc`, `imx477_set_frame_length`
writes `L >>> s` to the 16-bit frame-length register and `s` to the
long-exposure-shift register, where `s` is the least natural number with
`L >>> s ≤ 0xffdc`; moreover `s = 0` with value `L` when `L ≤ 0xffdc`,
and `1 ≤ s ≤ 7` when `0xffdc < L ≤ 128 * 0xffdc`. -/
theorem set_frame_length_shift_spec (L : Nat) (s : BusState)
    (hL : L ≤ 128 * IMX477_FRAME_LENGTH_MAX) :
    ∃ sh,
      imx477_set_frame_length noFail s L =
        (0, { nops := s.nops + 2,
              written := s.written ++
                [(IMX477_REG_FRAME_LENGTH, 2, L >>> sh),
                 (IMX477_LONG_EXP_SHIFT_REG, 1, sh)] }, sh) ∧
      L >>> sh ≤ IMX477_FRAME_LENGTH_MAX ∧
      (∀ t < sh, IMX477_FRAME_LENGTH_MAX < L >>> t) ∧
      (L ≤ IMX477_FRAME_LENGTH_MAX → sh = 0 ∧ L >>> sh = L) ∧
      (IMX477_FRAME_LENGTH_MAX < L → 1 ≤ sh ∧ sh ≤ 7) := by
  obtain ⟨-, h2, h3, h4⟩ := shiftLoop_spec L 0
  simp only [Nat.sub_zero] at h2 h3 h4
  have hsh7 := shiftLoop_shift_le_seven L hL
  refine ⟨(shiftLoop L 0).2, ?_, ?_, ?_, ?_, ?_⟩
  · have hv16 : (shiftLoop L 0).1 % 2 ^ (8 * 2) = (shiftLoop L 0).1 :=
      Nat.mod_eq_of_lt (lt_of_le_of_lt h3 (by decide))
    have hs8 : (shiftLoop L 0).2 % 2 ^ (8 * 1) = (shiftLoop L 0).2 :=
      Nat.mod_eq_of_lt (lt_of_le_of_lt hsh7 (by decide))
    simp [imx477_set_frame_length, imx477_write_reg, noFail, hv16, hs8,
          Nat.shiftRight_eq_div_pow, ← h2]
    exact ⟨lt_of_le_of_lt h3 (by decide), lt_of_le_of_lt hsh7 (by decide)⟩
  · rw [Nat.shiftRight_eq_div_pow, ← h2]; exact h3
  · intro t ht
    rw [Nat.shiftRight_eq_div_pow]
    simpa using h4 t (Nat.zero_le _) ht
  · intro hle
    rw [shiftLoop_le L hle]
    simp
  · intro hgt
    refine ⟨?_, hsh7⟩
    by_contra h0
    have : (shiftLoop L 0).2 = 0 := by omega
    rw [this] at h2
    simp at h2
    omega

/-- Witness for C1 at `L = 0x30000` (where the computed shift is 2). -/
theorem set_frame_length_shift_spec_w :
    0x30000 ≤ 128 * IMX477_FRAME_LENGTH_MAX ∧
    (∃ sh,
      imx477_set_frame_length noFail ⟨0, []⟩ 0x30000 =
        (0, { nops := 0 + 2,
              written := [] ++
                [(IMX477_REG_FRAME_LENGTH, 2, 0x30000 >>> sh),
                 (IMX477_LONG_EXP_SHIFT_REG, 1, sh)] }, sh) ∧
      0x30000 >>> sh ≤ IMX477_FRAME_LENGTH_MAX ∧
      (∀ t < sh, IMX477_FRAME_LENGTH_MAX < 0x30000 >>> t) ∧
      (0x30000 ≤ IMX477_FRAME_LENGTH_MAX → sh = 0 ∧ 0x30000 >>> sh = 0x30000) ∧
      (IMX477_FRAME_LENGTH_MAX < 0x30000 → 1 ≤ sh ∧ sh ≤ 7)) :=
  ⟨by decide, set_frame_length_shift_spec 0x30000 ⟨0, []⟩ (by decide)⟩

/-- C7 (amended): `imx477_write_regs` performs the writes strictly in list
order; if no write fails it returns 0 after transmitting every entry, and
at the first failing entry it aborts, attempting no later entry and no
retry, returning the bus error code `-EIO_val` of the failed write (not the
failing offset). -/
theorem write_regs_order_abort (fail : Nat → Bool) (s : BusState)
    (regs : List Reg) :
    ((∀ i < regs.length, fail (s.nops + i) = false) →
      imx477_write_regs fail s regs =
        (0, { nops := s.nops + regs.length,
              written := s.written ++
                regs.map (fun r => (r.address, 1, r.val % 256)) })) ∧
    (∀ i < regs.length, (∀ j < i, fail (s.nops + j) = false) →
      fail (s.nops + i) = true →
      imx477_write_regs fail s regs =
        (-EIO_val, { nops := s.nops + i + 1,
                     written := s.written ++
                       (regs.take i).map (fun r => (r.address, 1, r.val % 256)) })) :=
  ⟨write_regs_ok fail s regs,
   fun i hi hb hf => write_regs_fail fail s regs i hi hb hf⟩

/-- Witness for C7: a three-entry list whose second write fails stops after
two attempted transactions with only the first entry transmitted. -/
theorem write_regs_order_abort_w :
    imx477_write_regs (fun n => n == 1) ⟨0, []⟩
        [⟨0x3000, 5⟩, ⟨0x3001, 6⟩, ⟨0x3002, 7⟩] =
      (-EIO_val, ⟨2, [(0x3000, 1, 5)]⟩) := by
  have h := (write_regs_order_abort (fun n => n == 1) ⟨0, []⟩
      [⟨0x3000, 5⟩, ⟨0x3001, 6⟩, ⟨0x3002, 7⟩]).2 1 (by decide)
      (by decide) (by decide)
  simpa using h

/-- C7 counterexample: the failing offset is 1, but the value returned is
the bus error code `-5`, which is not the failing offset. -/
theorem write_regs_return_is_error_code :
    (imx477_write_regs (fun n => n == 1) ⟨0, []⟩
        [⟨0x3000, 5⟩, ⟨0x3001, 6⟩, ⟨0x3002, 7⟩]).1 = -EIO_val ∧
    (imx477_write_regs (fun n => n == 1) ⟨0, []⟩
        [⟨0x3000, 5⟩, ⟨0x3001, 6⟩, ⟨0x3002, 7⟩]).1 ≠ 1 := by
  decide

/- ── Media-bus format codes. ──

Values of the external `media-bus-format.h` header constants named by the
driver (the header itself is outside this repository). -/

def MEDIA_BUS_FMT_SRGGB12_1X12 : Nat := 0x3012
def MEDIA_BUS_FMT_SGRBG12_1X12 : Nat := 0x3011
def MEDIA_BUS_FMT_SGBRG12_1X12 : Nat := 0x3010
def MEDIA_BUS_FMT_SBGGR12_1X12 : Nat := 0x3008
def MEDIA_BUS_FMT_SRGGB10_1X10 : Nat := 0x300f
def MEDIA_BUS_FMT_SGRBG10_1X10 : Nat := 0x300a
def MEDIA_BUS_FMT_SGBRG10_1X10 : Nat := 0x300e
def MEDIA_BUS_FMT_SBGGR10_1X10 : Nat := 0x3007

/-- The supported format table `codes[]`: four entries per base format,
ordered no-flip, h-flip, v-flip, h&v-flip. -/
def codes : List Nat :=
  [MEDIA_BUS_FMT_SRGGB12_1X12, MEDIA_BUS_FMT_SGRBG12_1X12,
   MEDIA_BUS_FMT_SGBRG12_1X12, MEDIA_BUS_FMT_SBGGR12_1X12,
   MEDIA_BUS_FMT_SRGGB10_1X10, MEDIA_BUS_FMT_SGRBG10_1X10,
   MEDIA_BUS_FMT_SGBRG10_1X10, MEDIA_BUS_FMT_SBGGR10_1X10]

/-- The linear search loop of `imx477_get_format_code`: first index whose
entry equals `code`, or the list length when absent. -/
def codeIndex : List Nat → Nat → Nat
  | [], _ => 0
  | c :: cs, code => if c = code then 0 else codeIndex cs code + 1

/-- `imx477_get_format_code`: look the code up in `codes`, fall back to
index 0 when absent, then overwrite the low two index bits with the flip
state (`i & ~3` equals `i / 4 * 4` for the in-range indices used here)
and return the code at the adjusted index. -/
def imx477_get_format_code (hflip vflip : Bool) (code : Nat) : Nat :=
  let i := codeIndex codes code
  let i := if codes.length ≤ i then 0 else i
  let i := i / 4 * 4 + (if vflip then 2 else 0) + (if hflip then 1 else 0)
  codes.getD i 0

/- ── Mode table. ── -/

structure V4l2Fract where
  numerator : Nat
  denominator : Nat
  deriving Repr, DecidableEq

structure V4l2Rect where
  left : Nat
  top : Nat
  width : Nat
  height : Nat
  deriving Repr, DecidableEq

def IMX477_PIXEL_ARRAY_LEFT : Nat := 8
def IMX477_PIXEL_ARRAY_TOP : Nat := 16

/-- `struct imx477_mode` (the per-mode register program, mechanical
constant data, is carried separately as a list parameter where needed). -/
structure Imx477Mode where
  width : Nat
  height : Nat
  line_length_pix : Nat
  crop : V4l2Rect
  timeperframe_min : V4l2Fract
  timeperframe_default : V4l2Fract
  deriving Repr, DecidableEq

def mode_4056x3040 : Imx477Mode :=
  { width := 4056, height := 3040, line_length_pix := 0x5dc0,
    crop := ⟨IMX477_PIXEL_ARRAY_LEFT, IMX477_PIXEL_ARRAY_TOP, 4056, 3040⟩,
    timeperframe_min := ⟨100, 1000⟩, timeperframe_default := ⟨100, 1000⟩ }

def mode_2028x1520 : Imx477Mode :=
  { width := 2028, height := 1520, line_length_pix := 0x31c4,
    crop := ⟨IMX477_PIXEL_ARRAY_LEFT, IMX477_PIXEL_ARRAY_TOP, 4056, 3040⟩,
    timeperframe_min := ⟨100, 4000⟩, timeperframe_default := ⟨100, 3000⟩ }

def mode_2028x1080 : Imx477Mode :=
  { width := 2028, height := 1080, line_length_pix := 0x31c4,
    crop := ⟨IMX477_PIXEL_ARRAY_LEFT, IMX477_PIXEL_ARRAY_TOP + 440, 4056, 2160⟩,
    timeperframe_min := ⟨100, 5000⟩, timeperframe_default := ⟨100, 3000⟩ }

def mode_1332x990 : Imx477Mode :=
  { width := 1332, height := 990, line_length_pix := 6664,
    crop := ⟨IMX477_PIXEL_ARRAY_LEFT + 696, IMX477_PIXEL_ARRAY_TOP + 528, 2664, 1980⟩,
    timeperframe_min := ⟨100, 12000⟩, timeperframe_default := ⟨100, 12000⟩ }

def supported_modes_12bit : List Imx477Mode :=
  [mode_4056x3040, mode_2028x1520, mode_2028x1080]

def supported_modes_10bit : List Imx477Mode :=
  [mode_1332x990]

/-- `get_mode_table`: the 12-bit codes map to the 12-bit table, the
10-bit codes to the 10-bit table, anything else to the empty table. -/
def get_mode_table (code : Nat) : List Imx477Mode :=
  if code = MEDIA_BUS_FMT_SRGGB12_1X12 ∨ code = MEDIA_BUS_FMT_SGRBG12_1X12 ∨
     code = MEDIA_BUS_FMT_SGBRG12_1X12 ∨ code = MEDIA_BUS_FMT_SBGGR12_1X12 then
    supported_modes_12bit
  else if code = MEDIA_BUS_FMT_SRGGB10_1X10 ∨ code = MEDIA_BUS_FMT_SGRBG10_1X10 ∨
          code = MEDIA_BUS_FMT_SGBRG10_1X10 ∨ code = MEDIA_BUS_FMT_SBGGR10_1X10 then
    supported_modes_10bit
  else []

/- ── Nearest-mode selection. ── -/

/-- Modelled from the spec: the mode search is delegated by
`imx477_set_pad_format` to the host-framework helper
`v4l2_find_nearest_size`, whose implementation is not part of this
repository; the spec defines the distance metric as nearest in area with
ties broken by nearest width. -/
def modeDist (w h : Nat) (m : Imx477Mode) : Nat × Nat :=
  (((m.width * m.height : Int) - (w * h : Int)).natAbs,
   ((m.width : Int) - (w : Int)).natAbs)

/-- Lexicographic comparison of the (area distance, width distance) pairs. -/
def distLe : Nat × Nat → Nat × Nat → Bool
  | (a1, a2), (b1, b2) => a1 < b1 || (a1 = b1 && a2 ≤ b2)

/-- Modelled from the spec: select the mode minimising `modeDist`,
earlier table entries winning remaining ties. -/
def nearestMode (w h : Nat) : List Imx477Mode → Option Imx477Mode
  | [] => none
  | m :: ms =>
    match nearestMode w h ms with
    | none => some m
    | some best =>
      if distLe (modeDist w h m) (modeDist w h best) then some m else some best

/- ── Format negotiation (`imx477_set_pad_format`, ACTIVE path). ── -/

structure FmtState where
  mode : Imx477Mode
  fmt_code : Nat
  hflip : Bool
  vflip : Bool
  deriving Repr, DecidableEq

/-- `imx477_set_pad_format` on the ACTIVE format: an out-of-range pad is
rejected with `-EINVAL`; on the image pad the requested code is resolved
through `imx477_get_format_code`, the nearest mode of the resolved
table is chosen, and mode and code are stored only when the mode
changed; the metadata pad keeps the fixed embedded-data format.  Always
returns 0 for a valid pad. -/
def imx477_set_pad_format (st : FmtState) (pad w h code : Nat) :
    Int × FmtState :=
  if 2 ≤ pad then (-EINVAL, st)
  else if pad = 0 then
    match nearestMode w h
        (get_mode_table (imx477_get_format_code st.hflip st.vflip code)) with
    | some m =>
      if st.mode ≠ m then
        (0, { st with mode := m,
                      fmt_code := imx477_get_format_code st.hflip st.vflip code })
      else (0, st)
    | none => (0, st)
  else (0, st)

/-- The default format installed by `imx477_set_default_format`: the
first 12-bit mode and the RGGB 12-bit code, flips off. -/
def defaultFmtState : FmtState :=
  { mode := mode_4056x3040, fmt_code := MEDIA_BUS_FMT_SRGGB12_1X12,
    hflip := false, vflip := false }

/- ── Lemmas about the format-code resolver and mode search. ── -/

theorem codeIndex_of_not_mem (cs : List Nat) (code : Nat) (h : code ∉ cs) :
    codeIndex cs code = cs.length := by
  induction cs with
  | nil => rfl
  | cons c cs ih =>
    rw [codeIndex, if_neg (by simp at h; omega)]
    simp [ih (by simp at h; tauto)]

theorem get_format_code_mem (hf vf : Bool) (code : Nat) :
    imx477_get_format_code hf vf code ∈ codes := by
  have hall : ∀ j < 8, codes.getD j 0 ∈ codes := by decide
  rw [imx477_get_format_code]
  set i0 := codeIndex codes code with hi0
  set i1 := if codes.length ≤ i0 then 0 else i0 with hi1
  have h1 : i1 < 8 := by
    rw [hi1]
    split
    · decide
    · simp only [codes, List.length] at *
      omega
  apply hall
  have : i1 / 4 * 4 ≤ 4 := by omega
  have : (if vf then 2 else 0) + (if hf then 1 else 0) ≤ 3 := by
    rcases vf <;> rcases hf <;> decide
  omega

theorem table_of_code_ne_nil (c : Nat) (hc : c ∈ codes) :
    get_mode_table c ≠ [] := by
  fin_cases hc <;> decide

theorem distLe_refl (a : Nat × Nat) : distLe a a = true := by
  rcases a with ⟨a1, a2⟩
  simp [distLe]

theorem distLe_trans (a b c : Nat × Nat) (h1 : distLe a b = true)
    (h2 : distLe b c = true) : distLe a c = true := by
  rcases a with ⟨a1, a2⟩; rcases b with ⟨b1, b2⟩; rcases c with ⟨c1, c2⟩
  simp only [distLe, Bool.or_eq_true, Bool.and_eq_true, decide_eq_true_eq] at *
  omega

theorem distLe_total (a b : Nat × Nat) (h : distLe a b = false) :
    distLe b a = true := by
  rcases a with ⟨a1, a2⟩; rcases b with ⟨b1, b2⟩
  simp only [distLe, Bool.or_eq_true, Bool.and_eq_true, decide_eq_true_eq,
    Bool.or_eq_false_iff, Bool.and_eq_false_iff, decide_eq_false_iff_not] at *
  omega

theorem nearestMode_cons_ne_none (w h : Nat) (m : Imx477Mode)
    (ms : List Imx477Mode) : nearestMode w h (m :: ms) ≠ none := by
  rw [nearestMode]
  rcases hms : nearestMode w h ms with _ | best
  · simp
  · simp only []
    split <;> simp

theorem nearestMode_mem (w h : Nat) (ms : List Imx477Mode) (b : Imx477Mode)
    (hb : nearestMode w h ms = some b) : b ∈ ms := by
  induction ms with
  | nil => simp [nearestMode] at hb
  | cons m ms ih =>
    rw [nearestMode] at hb
    rcases hms : nearestMode w h ms with _ | best <;> rw [hms] at hb
    · simp only [Option.some.injEq] at hb
      simp [← hb]
    · simp only [] at hb
      split at hb <;> simp only [Option.some.injEq] at hb
      · simp [← hb]
      · exact List.mem_cons_of_mem _ (ih (hb ▸ hms))

theorem nearestMode_min (w h : Nat) (ms : List Imx477Mode) (b : Imx477Mode)
    (hb : nearestMode w h ms = some b) :
    ∀ m ∈ ms, distLe (modeDist w h b) (modeDist w h m) = true := by
  induction ms generalizing b with
  | nil => simp
  | cons m ms ih =>
    intro m' hm'
    rw [nearestMode] at hb
    rcases hms : nearestMode w h ms with _ | best <;> rw [hms] at hb
    · have hnil : ms = [] := by
        cases ms with
        | nil => rfl
        | cons x xs => exact absurd hms (nearestMode_cons_ne_none w h x xs)
      subst hnil
      simp only [Option.some.injEq] at hb
      rcases List.mem_singleton.mp (by simpa using hm') with rfl
      subst hb
      exact distLe_refl _
    · simp only [] at hb
      rcases List.mem_cons.mp hm' with rfl | hmem
      · split at hb <;> simp only [Option.some.injEq] at hb
        · subst hb
          exact distLe_refl _
        · rename_i hnot
          subst hb
          exact distLe_total _ _ (Bool.eq_false_iff.mpr hnot)
      · split at hb <;> simp only [Option.some.injEq] at hb
        · rename_i hle
          subst hb
          exact distLe_trans _ _ _ hle (ih _ hms m' hmem)
        · subst hb
          exact ih _ hms m' hmem

/-- C4: for every supported base format (each group of four consecutive
`codes` entries) `imx477_get_format_code` selects, within the group,
index `(hflip ? 1 : 0) | (vflip ? 2 : 0)`; the flip-state to code-variant
mapping is injective and onto the group's four distinct variants (it is
a function of its arguments, hence deterministic). -/
theorem format_code_flip_bijection :
    (∀ g < 2, ∀ j < 4, ∀ (hf vf : Bool),
        imx477_get_format_code hf vf (codes.getD (4 * g + j) 0) =
          codes.getD (4 * g + ((if vf then 2 else 0) + (if hf then 1 else 0))) 0) ∧
    (∀ g < 2, ∀ (hf vf hf' vf' : Bool),
        imx477_get_format_code hf vf (codes.getD (4 * g) 0) =
          imx477_get_format_code hf' vf' (codes.getD (4 * g) 0) →
          hf = hf' ∧ vf = vf') ∧
    (∀ g < 2, ∀ j < 4, ∃ (hf vf : Bool),
        imx477_get_format_code hf vf (codes.getD (4 * g) 0) =
          codes.getD (4 * g + j) 0) := by
  decide

/-- C10: a media-bus code outside the supported table does not fail and
is not passed through: the resolver falls back to index 0 and returns
the flip-adjusted variant of the first (12-bit RGGB) family, so its
result is always a member of the supported table. -/
theorem format_code_fallback (code : Nat) (hcode : code ∉ codes)
    (hf vf : Bool) :
    imx477_get_format_code hf vf code =
      codes.getD ((if vf then 2 else 0) + (if hf then 1 else 0)) 0 ∧
    imx477_get_format_code hf vf code ∈ codes := by
  have hidx : codeIndex codes code = 8 := codeIndex_of_not_mem codes code hcode
  constructor
  · rw [imx477_get_format_code, hidx]
    norm_num [codes]
  · exact get_format_code_mem hf vf code

/-- Witness for C10 at the unsupported code `0x1234` with h-flip on. -/
theorem format_code_fallback_w :
    (0x1234 ∉ codes) ∧
    (imx477_get_format_code true false 0x1234 =
        codes.getD ((if false then 2 else 0) + (if true then 1 else 0)) 0 ∧
     imx477_get_format_code true false 0x1234 ∈ codes) :=
  ⟨by decide, format_code_fallback 0x1234 (by decide) true false⟩

/-- C3: the mode search picks, within the table registered for the
resolved format's bit depth, a mode minimising the (area, width)
distance; in particular 2000x1000 with the 12-bit RGGB format resolves
to the 2028x1080 mode. -/
theorem nearest_mode_resolution :
    (∀ w h code b, nearestMode w h (get_mode_table code) = some b →
        b ∈ get_mode_table code ∧
        ∀ m ∈ get_mode_table code,
          distLe (modeDist w h b) (modeDist w h m) = true) ∧
    nearestMode 2000 1000 (get_mode_table MEDIA_BUS_FMT_SRGGB12_1X12) =
      some mode_2028x1080 := by
  refine ⟨fun w h code b hb => ⟨nearestMode_mem _ _ _ _ hb, nearestMode_min _ _ _ _ hb⟩, ?_⟩
  decide

/-- Witness for C3: the resolved 2028x1080 mode is a member of the
12-bit table it was selected from. -/
theorem nearest_mode_resolution_w :
    nearestMode 2000 1000 (get_mode_table MEDIA_BUS_FMT_SRGGB12_1X12) =
      some mode_2028x1080 ∧
    mode_2028x1080 ∈ get_mode_table MEDIA_BUS_FMT_SRGGB12_1X12 :=
  ⟨nearest_mode_resolution.2,
   (nearest_mode_resolution.1 2000 1000 MEDIA_BUS_FMT_SRGGB12_1X12
      mode_2028x1080 (by decide)).1⟩

/-- C8 (amended): `imx477_set_pad_format` never returns an
unsupported-format or unsupported-resolution error: any requested code
resolves (unknown codes fall back to the first supported family) and any
resolution resolves to the nearest mode of the resolved table, the call
returning 0; the only failure is an out-of-range pad index, rejected
with `-EINVAL` and leaving the state unchanged. -/
theorem set_pad_format_never_unsupported (st : FmtState) (pad w h code : Nat) :
    (2 ≤ pad → imx477_set_pad_format st pad w h code = (-EINVAL, st)) ∧
    (pad < 2 → (imx477_set_pad_format st pad w h code).1 = 0) ∧
    (pad = 0 →
      ∃ m, nearestMode w h
          (get_mode_table (imx477_get_format_code st.hflip st.vflip code)) =
            some m ∧
        (imx477_set_pad_format st pad w h code).2.mode = m) := by
  have htab := table_of_code_ne_nil _ (get_format_code_mem st.hflip st.vflip code)
  have hsome : ∃ m, nearestMode w h
      (get_mode_table (imx477_get_format_code st.hflip st.vflip code)) = some m := by
    rcases htabs : get_mode_table (imx477_get_format_code st.hflip st.vflip code) with
      _ | ⟨x, xs⟩
    · exact absurd htabs htab
    · rcases hx : nearestMode w h (x :: xs) with _ | b
      · exact absurd hx (nearestMode_cons_ne_none w h x xs)
      · exact ⟨b, rfl⟩
  refine ⟨fun hp => by rw [imx477_set_pad_format, if_pos hp], ?_, ?_⟩
  · intro hp
    rw [imx477_set_pad_format, if_neg (by omega)]
    have hp01 : pad = 0 ∨ pad = 1 := by omega
    rcases hp01 with rfl | rfl
    · simp only [if_pos rfl]
      obtain ⟨m, hm⟩ := hsome
      simp only [hm]
      by_cases hmm : st.mode ≠ m <;> simp [hmm]
    · rw [if_neg (by omega)]
  · intro hp
    subst hp
    obtain ⟨m, hm⟩ := hsome
    refine ⟨m, hm, ?_⟩
    rw [imx477_set_pad_format, if_neg (by omega), if_pos rfl]
    simp only [hm]
    split
    · rfl
    · rename_i hne
      simpa using hne

/-- Witness for C8 at the default state, image pad, 2000x1000, 12-bit. -/
theorem set_pad_format_never_unsupported_w :
    (imx477_set_pad_format defaultFmtState 0 2000 1000
        MEDIA_BUS_FMT_SRGGB12_1X12).1 = 0 ∧
    (∃ m, nearestMode 2000 1000
        (get_mode_table (imx477_get_format_code defaultFmtState.hflip
          defaultFmtState.vflip MEDIA_BUS_FMT_SRGGB12_1X12)) = some m ∧
      (imx477_set_pad_format defaultFmtState 0 2000 1000
          MEDIA_BUS_FMT_SRGGB12_1X12).2.mode = m) :=
  ⟨(set_pad_format_never_unsupported defaultFmtState 0 2000 1000
      MEDIA_BUS_FMT_SRGGB12_1X12).2.1 (by decide),
   (set_pad_format_never_unsupported defaultFmtState 0 2000 1000
      MEDIA_BUS_FMT_SRGGB12_1X12).2.2 rfl⟩

/-- C8 counterexample: an unregistered code (bit depth neither 10 nor 12)
is accepted with success and the active mode changes; an unsupported
resolution on the 10-bit set is also accepted with success. -/
theorem set_pad_format_accepts_unsupported :
    (imx477_set_pad_format defaultFmtState 0 100 100 0xdead).1 = 0 ∧
    (imx477_set_pad_format defaultFmtState 0 100 100 0xdead).2.mode ≠
      defaultFmtState.mode ∧
    (imx477_set_pad_format defaultFmtState 0 9999 9999
        MEDIA_BUS_FMT_SRGGB10_1X10).1 = 0 ∧
    (imx477_set_pad_format defaultFmtState 0 9999 9999
        MEDIA_BUS_FMT_SRGGB10_1X10).2.mode = mode_1332x990 := by
  decide

/- ── Control-range adapter. ── -/

/-- A V4L2 control's range and values (`struct v4l2_ctrl` fields the
driver touches). -/
structure V4l2Ctrl where
  minimum : Int
  maximum : Int
  step : Int
  val : Int
  default_value : Int
  deriving Repr, DecidableEq

/-- Modelled from the spec: the framework helper
`__v4l2_ctrl_modify_range` is not part of this repository; per the spec
it installs the new `{minimum, maximum, step, default}` on the control. -/
def v4l2_ctrl_modify_range (c : V4l2Ctrl) (mn mx stp df : Int) : V4l2Ctrl :=
  { minimum := mn, maximum := mx, step := stp, val := c.val,
    default_value := df }

/-- `imx477_adjust_exposure_range`: honour the VBLANK limits, computing
the exposure maximum from the active mode's height and the current
vertical-blank value, and clamp the default to that maximum. -/
def imx477_adjust_exposure_range (mode : Imx477Mode) (vblankVal : Int)
    (exposure : V4l2Ctrl) : V4l2Ctrl :=
  let exposure_max : Int := mode.height + vblankVal - IMX477_EXPOSURE_OFFSET
  let exposure_def : Int := min exposure_max exposure.val
  v4l2_ctrl_modify_range exposure exposure.minimum exposure_max
    exposure.step exposure_def

/-- `imx477_get_frame_length`: frame length from the frame period and
the mode's line length, clamped (with a warning) to the maximum and to
at least the mode's height. -/
def imx477_get_frame_length (mode : Imx477Mode) (tpf : V4l2Fract) : Nat :=
  let fl := tpf.numerator * IMX477_PIXEL_RATE /
    (tpf.denominator * mode.line_length_pix)
  let fl := if IMX477_FRAME_LENGTH_MAX < fl then IMX477_FRAME_LENGTH_MAX else fl
  max fl mode.height

/-- The minimum of the vertical-blank range computed by
`imx477_set_framing_limits`: `frm_length_min - mode->height`. -/
def vblank_min (mode : Imx477Mode) : Nat :=
  imx477_get_frame_length mode mode.timeperframe_min - mode.height

/- ── Control application (`imx477_set_ctrl`). ── -/

/-- The control ids handled by `imx477_set_ctrl` (values of the external
V4L2 control-id header constants are irrelevant to the switch). -/
inductive CtrlId where
  | analogueGain | exposure | digitalGain | testPattern | testPatternRed
  | testPatternGreenR | testPatternBlue | testPatternGreenB
  | hflip | vflip | vblank | hblank | other
  deriving Repr, DecidableEq

/-- `imx477_test_pattern_val[]`. -/
def imx477_test_pattern_val : List Nat := [0, 2, 1, 3, 4]

/-- The driver state touched by the control paths. -/
structure SensorState where
  mode : Imx477Mode
  exposure : V4l2Ctrl
  vblankVal : Int
  long_exp_shift : Nat
  hflip : Bool
  vflip : Bool
  bus : BusState
  deriving Repr, DecidableEq

/-- `imx477_set_ctrl`: a VBLANK change first re-adjusts the exposure
range; if the device is not powered for streaming no register is
written; otherwise the register matching the control id is written (the
exposure value right-shifted by the stored long-exposure shift, the
VBLANK value routed through `imx477_set_frame_length` as
`mode->height + val`). -/
def imx477_set_ctrl (fail : Nat → Bool) (powered : Bool) (s : SensorState)
    (id : CtrlId) (val : Int) : Int × SensorState :=
  let s := if id = CtrlId.vblank then
      { s with vblankVal := val,
               exposure := imx477_adjust_exposure_range s.mode val s.exposure }
    else s
  if !powered then (0, s)
  else match id with
  | CtrlId.analogueGain =>
    let out := imx477_write_reg fail s.bus IMX477_REG_ANALOG_GAIN 2 val.toNat
    (out.1, { s with bus := out.2 })
  | CtrlId.exposure =>
    let out := imx477_write_reg fail s.bus IMX477_REG_EXPOSURE 2
      (val.toNat >>> s.long_exp_shift)
    (out.1, { s with bus := out.2 })
  | CtrlId.digitalGain =>
    let out := imx477_write_reg fail s.bus IMX477_REG_DIGITAL_GAIN 2 val.toNat
    (out.1, { s with bus := out.2 })
  | CtrlId.testPattern =>
    let out := imx477_write_reg fail s.bus IMX477_REG_TEST_PATTERN 2
      (imx477_test_pattern_val.getD val.toNat 0)
    (out.1, { s with bus := out.2 })
  | CtrlId.testPatternRed =>
    let out := imx477_write_reg fail s.bus IMX477_REG_TEST_PATTERN_R 2 val.toNat
    (out.1, { s with bus := out.2 })
  | CtrlId.testPatternGreenR =>
    let out := imx477_write_reg fail s.bus IMX477_REG_TEST_PATTERN_GR 2 val.toNat
    (out.1, { s with bus := out.2 })
  | CtrlId.testPatternBlue =>
    let out := imx477_write_reg fail s.bus IMX477_REG_TEST_PATTERN_B 2 val.toNat
    (out.1, { s with bus := out.2 })
  | CtrlId.testPatternGreenB =>
    let out := imx477_write_reg fail s.bus IMX477_REG_TEST_PATTERN_GB 2 val.toNat
    (out.1, { s with bus := out.2 })
  | CtrlId.hflip =>
    let out := imx477_write_reg fail s.bus IMX477_REG_ORIENTATION 1
      ((if s.hflip then 1 else 0) + (if s.vflip then 2 else 0))
    (out.1, { s with bus := out.2 })
  | CtrlId.vflip =>
    let out := imx477_write_reg fail s.bus IMX477_REG_ORIENTATION 1
      ((if s.hflip then 1 else 0) + (if s.vflip then 2 else 0))
    (out.1, { s with bus := out.2 })
  | CtrlId.vblank =>
    let out := imx477_set_frame_length fail s.bus ((s.mode.height + val).toNat)
    (out.1, { s with bus := out.2.1, long_exp_shift := out.2.2 })
  | CtrlId.hblank =>
    let out := imx477_write_reg fail s.bus IMX477_REG_LINE_LENGTH 2
      ((s.mode.width + val).toNat)
    (out.1, { s with bus := out.2 })
  | CtrlId.other => (-EINVAL, s)

/-- A concrete driver state used by witnesses: default mode, an
exposure control within range, minimum vertical blank, no shift. -/
def sampleState : SensorState :=
  { mode := mode_4056x3040,
    exposure := { minimum := 4, maximum := 3478, step := 1, val := 1600,
                  default_value := 1600 },
    vblankVal := 460, long_exp_shift := 0, hflip := false, vflip := false,
    bus := { nops := 0, written := [] } }

/-- C5: setting the vertical-blank control to `v` recomputes the exposure
control's maximum to `mode.height + v - 22` and clamps its default to
the minimum of its previous value and that maximum; for the 4056x3040
mode at the minimum computed vertical blank (460) the maximum equals
`3040 + vblankMin - 22`. -/
theorem vblank_adjusts_exposure_range (fail : Nat → Bool) (powered : Bool)
    (st : SensorState) (v : Int) :
    ((imx477_set_ctrl fail powered st CtrlId.vblank v).2).exposure.maximum =
        (st.mode.height : Int) + v - IMX477_EXPOSURE_OFFSET ∧
    ((imx477_set_ctrl fail powered st CtrlId.vblank v).2).exposure.default_value =
        min ((st.mode.height : Int) + v - IMX477_EXPOSURE_OFFSET)
          st.exposure.val ∧
    vblank_min mode_4056x3040 = 460 ∧
    (st.mode = mode_4056x3040 →
      ((imx477_set_ctrl fail powered st CtrlId.vblank
          (vblank_min mode_4056x3040 : Int)).2).exposure.maximum =
        3040 + (vblank_min mode_4056x3040 : Int) - IMX477_EXPOSURE_OFFSET) := by
  have hexp : ∀ (p : Bool) (w : Int),
      ((imx477_set_ctrl fail p st CtrlId.vblank w).2).exposure =
        imx477_adjust_exposure_range st.mode w st.exposure := by
    intro p w
    cases p <;> simp [imx477_set_ctrl]
  refine ⟨?_, ?_, by decide, ?_⟩
  · rw [hexp]
    simp [imx477_adjust_exposure_range, v4l2_ctrl_modify_range]
  · rw [hexp]
    simp [imx477_adjust_exposure_range, v4l2_ctrl_modify_range]
  · intro hm
    rw [hexp]
    simp [imx477_adjust_exposure_range, v4l2_ctrl_modify_range, hm]
    decide

/-- Witness for C5 at the sample state (4056x3040 mode, vblank 460). -/
theorem vblank_adjusts_exposure_range_w :
    ((imx477_set_ctrl noFail false sampleState CtrlId.vblank 460).2).exposure.maximum =
        (sampleState.mode.height : Int) + 460 - IMX477_EXPOSURE_OFFSET ∧
    ((imx477_set_ctrl noFail false sampleState CtrlId.vblank 460).2).exposure.default_value =
        min ((sampleState.mode.height : Int) + 460 - IMX477_EXPOSURE_OFFSET)
          sampleState.exposure.val ∧
    vblank_min mode_4056x3040 = 460 ∧
    (sampleState.mode = mode_4056x3040 →
      ((imx477_set_ctrl noFail false sampleState CtrlId.vblank
          (vblank_min mode_4056x3040 : Int)).2).exposure.maximum =
        3040 + (vblank_min mode_4056x3040 : Int) - IMX477_EXPOSURE_OFFSET) :=
  vblank_adjusts_exposure_range noFail false sampleState 460

/-- C6: after `imx477_set_frame_length` programs frame length `L` (storing
shift `s`), applying the exposure control with raw value `v ≤ L` writes
exactly `v >>> s` to the exposure register, the same shift count keeping
the two registers consistent. -/
theorem exposure_shift_consistency (L v : Nat) (st : SensorState)
    (hv : v ≤ L) :
    (imx477_set_frame_length noFail st.bus L).1 = 0 ∧
    (imx477_set_frame_length noFail st.bus L).2.2 = (shiftLoop L 0).2 ∧
    ((imx477_set_ctrl noFail true
        { st with bus := (imx477_set_frame_length noFail st.bus L).2.1,
                  long_exp_shift := (imx477_set_frame_length noFail st.bus L).2.2 }
        CtrlId.exposure (v : Int)).2).bus.written =
      (imx477_set_frame_length noFail st.bus L).2.1.written ++
        [(IMX477_REG_EXPOSURE, 2, v >>> (shiftLoop L 0).2)] ∧
    v >>> (shiftLoop L 0).2 ≤ IMX477_FRAME_LENGTH_MAX := by
  obtain ⟨-, h2, h3, -⟩ := shiftLoop_spec L 0
  simp only [Nat.sub_zero] at h2 h3
  have hbound : v >>> (shiftLoop L 0).2 ≤ IMX477_FRAME_LENGTH_MAX := by
    rw [Nat.shiftRight_eq_div_pow]
    calc v / 2 ^ (shiftLoop L 0).2 ≤ L / 2 ^ (shiftLoop L 0).2 :=
          Nat.div_le_div_right hv
      _ ≤ IMX477_FRAME_LENGTH_MAX := h2 ▸ h3
  have hmod : v >>> (shiftLoop L 0).2 % 65536 = v >>> (shiftLoop L 0).2 :=
    Nat.mod_eq_of_lt (lt_of_le_of_lt hbound (by decide))
  have hsh : (imx477_set_frame_length noFail st.bus L).2.2 = (shiftLoop L 0).2 := by
    simp [imx477_set_frame_length, imx477_write_reg, noFail]
  refine ⟨?_, hsh, ?_, hbound⟩
  · simp [imx477_set_frame_length, imx477_write_reg, noFail]
  · simp [imx477_set_ctrl, imx477_write_reg, noFail, hsh]
    exact lt_of_le_of_lt hbound (by decide)

/-- Witness for C6 at `L = 0x30000`, `v = 0x2a000` (shift 2). -/
theorem exposure_shift_consistency_w :
    0x2a000 ≤ 0x30000 ∧
    ((imx477_set_frame_length noFail sampleState.bus 0x30000).1 = 0 ∧
     (imx477_set_frame_length noFail sampleState.bus 0x30000).2.2 =
        (shiftLoop 0x30000 0).2 ∧
     ((imx477_set_ctrl noFail true
        { sampleState with
            bus := (imx477_set_frame_length noFail sampleState.bus 0x30000).2.1,
            long_exp_shift :=
              (imx477_set_frame_length noFail sampleState.bus 0x30000).2.2 }
        CtrlId.exposure ((0x2a000 : Nat) : Int)).2).bus.written =
      (imx477_set_frame_length noFail sampleState.bus 0x30000).2.1.written ++
        [(IMX477_REG_EXPOSURE, 2, 0x2a000 >>> (shiftLoop 0x30000 0).2)] ∧
     0x2a000 >>> (shiftLoop 0x30000 0).2 ≤ IMX477_FRAME_LENGTH_MAX) :=
  ⟨by decide, exposure_shift_consistency 0x30000 0x2a000 sampleState (by decide)⟩

/- ── Streaming state machine. ── -/

/-- An ordered sequence of `(address, length, value)` register writes,
aborting at the first failure (used for the control replay). -/
def writeSeq (fail : Nat → Bool) (s : BusState) :
    List (Nat × Nat × Nat) → Int × BusState
  | [] => (0, s)
  | (a, l, v) :: rest =>
    let out := imx477_write_reg fail s a l v
    if out.1 ≠ 0 then out else writeSeq fail out.2 rest

/-- The register programs `imx477_start_streaming` pushes, carried as
parameters: the shared `mode_common_regs` block, the chip-variant
`extra_regs`, the active mode's `reg_list`, and the control replay.
The replay list is modelled from the spec: `__v4l2_ctrl_handler_setup`
is a framework helper outside this repository that replays all pending
control values in registration order, aborting on the first error. -/
structure RegProgram where
  common : List Reg
  extra : List Reg
  modeRegs : List Reg
  ctrlRegs : List (Nat × Nat × Nat)
  deriving Repr, DecidableEq

/-- The streaming-related driver state: the `common_regs_written` and
`streaming` flags, the counts of power-collaborator on/off invocations,
and the bus. -/
structure StreamState where
  common_regs_written : Bool
  streaming : Bool
  powerOns : Nat
  powerOffs : Nat
  bus : BusState
  deriving Repr, DecidableEq

/-- `imx477_start_streaming`: if the common block was not yet written,
push it and the chip-variant extra block (aborting on error, the flag
staying false), else mark the flag; push the mode's register program
(aborting on error); write the two defect-pixel-correction registers
with their return values ignored; replay the controls (aborting on
error); write the four trigger-mode registers with their return values
ignored; finally write mode-select = streaming, returning its result.
Returns `(ret, bus, common_regs_written)`. -/
def imx477_start_streaming (fail : Nat → Bool) (p : RegProgram) (dpc : Bool)
    (tm : Int) (crw : Bool) (bus : BusState) : Int × BusState × Bool :=
  let s1 : Int × BusState × Bool :=
    if !crw then
      let o1 := imx477_write_regs fail bus p.common
      let o2 := if o1.1 = 0 then imx477_write_regs fail o1.2 p.extra else o1
      if o2.1 ≠ 0 then (o2.1, o2.2, crw) else (0, o2.2, true)
    else (0, bus, crw)
  if s1.1 ≠ 0 then s1
  else
    let o3 := imx477_write_regs fail s1.2.1 p.modeRegs
    if o3.1 ≠ 0 then (o3.1, o3.2, s1.2.2)
    else
      let o4 := imx477_write_reg fail o3.2 0x0b05 1 (if dpc then 1 else 0)
      let o5 := imx477_write_reg fail o4.2 0x0b06 1 (if dpc then 1 else 0)
      let o6 := writeSeq fail o5.2 p.ctrlRegs
      if o6.1 ≠ 0 then (o6.1, o6.2, s1.2.2)
      else
        let o7 := imx477_write_reg fail o6.2 IMX477_REG_MC_MODE 1
          (if 0 < tm then 1 else 0)
        let o8 := imx477_write_reg fail o7.2 IMX477_REG_MS_SEL 1
          (if tm ≤ 1 then 1 else 0)
        let o9 := imx477_write_reg fail o8.2 IMX477_REG_XVS_IO_CTRL 1
          (if tm = 1 then 1 else 0)
        let o10 := imx477_write_reg fail o9.2 IMX477_REG_EXTOUT_EN 1
          (if tm = 1 then 1 else 0)
        let o11 := imx477_write_reg fail o10.2 IMX477_REG_MODE_SELECT 1
          IMX477_MODE_STREAMING
        (o11.1, o11.2, s1.2.2)

/-- `imx477_stop_streaming`: write mode-select = standby and clear the
external-output enable, both best-effort (errors only logged). -/
def imx477_stop_streaming (fail : Nat → Bool) (bus : BusState) : BusState :=
  let o1 := imx477_write_reg fail bus IMX477_REG_MODE_SELECT 1
    IMX477_MODE_STANDBY
  let o2 := imx477_write_reg fail o1.2 IMX477_REG_EXTOUT_EN 1 0
  o2.2

/-- `imx477_set_stream`: no-op returning 0 when the streaming flag
already matches; on enable, invoke the power collaborator, run the
start sequence, and on failure invoke power-off and return the error
with the streaming flag unchanged; on success set `streaming`.  On
disable, run the stop sequence, invoke power-off and clear the flag. -/
def imx477_set_stream (fail : Nat → Bool) (p : RegProgram) (dpc : Bool)
    (tm : Int) (s : StreamState) (enable : Bool) : Int × StreamState :=
  if s.streaming = enable then (0, s)
  else if enable then
    let out := imx477_start_streaming fail p dpc tm s.common_regs_written s.bus
    if out.1 ≠ 0 then
      (out.1, { s with bus := out.2.1, common_regs_written := out.2.2,
                       powerOns := s.powerOns + 1,
                       powerOffs := s.powerOffs + 1 })
    else
      (0, { s with bus := out.2.1, common_regs_written := out.2.2,
                   powerOns := s.powerOns + 1, streaming := true })
  else
    (0, { s with bus := imx477_stop_streaming fail s.bus,
                 powerOffs := s.powerOffs + 1, streaming := false })

theorem write_regs_noFail (s : BusState) (regs : List Reg) :
    imx477_write_regs noFail s regs =
      (0, { nops := s.nops + regs.length,
            written := s.written ++
              regs.map (fun r => (r.address, 1, r.val % 256)) }) :=
  write_regs_ok noFail s regs (fun _ _ => rfl)

theorem writeSeq_noFail (s : BusState) (ws : List (Nat × Nat × Nat))
    (h : ∀ w ∈ ws, w.2.1 ≤ 4) : (writeSeq noFail s ws).1 = 0 := by
  induction ws generalizing s with
  | nil => rfl
  | cons w rest ih =>
    obtain ⟨a, l, v⟩ := w
    have hl : l ≤ 4 := by simpa using h (a, l, v) (by simp)
    rw [writeSeq, imx477_write_reg]
    simp only [if_neg (by omega : ¬l > 4), noFail, Bool.false_eq_true, if_false]
    rw [if_neg (by simp)]
    exact ih _ (fun w hw => h w (List.mem_cons_of_mem _ hw))

theorem start_streaming_noFail (p : RegProgram) (dpc : Bool) (tm : Int)
    (crw : Bool) (bus : BusState) (hp : ∀ w ∈ p.ctrlRegs, w.2.1 ≤ 4) :
    (imx477_start_streaming noFail p dpc tm crw bus).1 = 0 := by
  have hseq : ∀ b : BusState, (writeSeq noFail b p.ctrlRegs).1 = 0 :=
    fun b => writeSeq_noFail b p.ctrlRegs hp
  cases crw <;>
    simp [imx477_start_streaming, write_regs_noFail, imx477_write_reg,
      noFail, hseq]

theorem set_stream_noop (fail : Nat → Bool) (p : RegProgram) (dpc : Bool)
    (tm : Int) (s : StreamState) (h : s.streaming = true) :
    imx477_set_stream fail p dpc tm s true = (0, s) := by
  rw [imx477_set_stream, if_pos h]

/-- The first twelve entries of `mode_common_regs`, used as a concrete
common block by witnesses. -/
def commonRegs12 : List Reg :=
  [⟨0x0136, 0x18⟩, ⟨0x0137, 0x00⟩, ⟨0x0138, 0x01⟩, ⟨0xe000, 0x00⟩,
   ⟨0xe07a, 0x01⟩, ⟨0x0808, 0x02⟩, ⟨0x4ae9, 0x18⟩, ⟨0x4aea, 0x08⟩,
   ⟨0xf61c, 0x04⟩, ⟨0xf61e, 0x04⟩, ⟨0x4ae9, 0x21⟩, ⟨0x4aea, 0x80⟩]

/-- A concrete register program for witnesses. -/
def sampleProgram : RegProgram :=
  { common := commonRegs12, extra := [],
    modeRegs := [⟨0x0112, 0x0c⟩, ⟨0x0113, 0x0c⟩],
    ctrlRegs := [(IMX477_REG_EXPOSURE, 2, 1600)] }

/-- The standby attach state: nothing written, not streaming. -/
def standbyState : StreamState :=
  { common_regs_written := false, streaming := false, powerOns := 0,
    powerOffs := 0, bus := { nops := 0, written := [] } }

/-- A powered-down state whose common block is already written. -/
def commonDoneState : StreamState :=
  { common_regs_written := true, streaming := false, powerOns := 0,
    powerOffs := 0, bus := { nops := 0, written := [] } }

/-- C9: `setStreaming(true)` is idempotent: while already streaming it is
an exact no-op returning 0 (same state, no bus transaction, no power
transition), so from standby two consecutive calls execute the start
program once and leave the state streaming. -/
theorem set_stream_idempotent (fail : Nat → Bool) (p : RegProgram)
    (dpc : Bool) (tm : Int) (s : StreamState) :
    (s.streaming = true → imx477_set_stream fail p dpc tm s true = (0, s)) ∧
    ((∀ w ∈ p.ctrlRegs, w.2.1 ≤ 4) → s.streaming = false →
      (imx477_set_stream noFail p dpc tm s true).1 = 0 ∧
      (imx477_set_stream noFail p dpc tm s true).2.streaming = true ∧
      imx477_set_stream noFail p dpc tm
          (imx477_set_stream noFail p dpc tm s true).2 true =
        (0, (imx477_set_stream noFail p dpc tm s true).2)) := by
  refine ⟨set_stream_noop fail p dpc tm s, ?_⟩
  intro hp hs
  have h0 := start_streaming_noFail p dpc tm s.common_regs_written s.bus hp
  have h1 : (imx477_set_stream noFail p dpc tm s true).1 = 0 := by
    rw [imx477_set_stream, if_neg (by simp [hs])]
    simp [h0]
  have h2 : (imx477_set_stream noFail p dpc tm s true).2.streaming = true := by
    rw [imx477_set_stream, if_neg (by simp [hs])]
    simp [h0]
  exact ⟨h1, h2, set_stream_noop noFail p dpc tm _ h2⟩

/-- Witness for C9: from standby, the first call succeeds and streams,
the second call is an exact no-op. -/
theorem set_stream_idempotent_w :
    (imx477_set_stream noFail sampleProgram false 0 standbyState true).1 = 0 ∧
    (imx477_set_stream noFail sampleProgram false 0 standbyState true).2.streaming = true ∧
    imx477_set_stream noFail sampleProgram false 0
        (imx477_set_stream noFail sampleProgram false 0 standbyState true).2 true =
      (0, (imx477_set_stream noFail sampleProgram false 0 standbyState true).2) :=
  (set_stream_idempotent noFail sampleProgram false 0 standbyState).2
    (by decide) rfl

/-- C2 (amended): a failure of any checked register write during
stream-start (common block, extra block, mode program, control replay,
final mode-select) makes `setStreaming(true)` return the error, invoke
power-off exactly once and leave the machine in standby; a failure
inside the common block additionally leaves `common_regs_written`
false and transmits exactly the entries preceding the failure.  (The
defect-pixel-correction and trigger-mode writes are unchecked: their
failures are ignored, see the counterexample.) -/
theorem start_failure_rolls_back (fail : Nat → Bool) (p : RegProgram)
    (dpc : Bool) (tm : Int) (s : StreamState) (hs : s.streaming = false) :
    ((imx477_set_stream fail p dpc tm s true).1 ≠ 0 →
      (imx477_set_stream fail p dpc tm s true).2.streaming = false ∧
      (imx477_set_stream fail p dpc tm s true).2.powerOffs = s.powerOffs + 1 ∧
      (imx477_set_stream fail p dpc tm s true).2.powerOns = s.powerOns + 1) ∧
    (∀ i < p.common.length, s.common_regs_written = false →
      (∀ j < i, fail (s.bus.nops + j) = false) →
      fail (s.bus.nops + i) = true →
      imx477_set_stream fail p dpc tm s true =
        (-EIO_val, { s with
          powerOns := s.powerOns + 1, powerOffs := s.powerOffs + 1,
          bus := { nops := s.bus.nops + i + 1,
                   written := s.bus.written ++
                     (p.common.take i).map
                       (fun r => (r.address, 1, r.val % 256)) } })) := by
  constructor
  · intro hne
    rw [imx477_set_stream, if_neg (by simp [hs])] at hne ⊢
    by_cases h0 : (imx477_start_streaming fail p dpc tm
        s.common_regs_written s.bus).1 = 0
    · simp [h0] at hne
    · simp [h0, hs]
  · intro i hi hcw hb hf
    have hcom := write_regs_fail fail s.bus p.common i hi hb hf
    rw [imx477_set_stream, if_neg (by simp [hs])]
    rw [imx477_start_streaming]
    simp only [hcw, Bool.not_false, if_pos rfl, hcom]
    norm_num [EIO_val]

/-- Witness for C2: a bus failing on the 10th common-block register
(offset 9) leaves standby with power-off invoked once, the flag false,
and only the first nine entries transmitted. -/
theorem start_failure_rolls_back_w :
    imx477_set_stream (fun n => n == 9) sampleProgram false 0 standbyState true =
      (-EIO_val, { standbyState with
        powerOns := standbyState.powerOns + 1,
        powerOffs := standbyState.powerOffs + 1,
        bus := { nops := standbyState.bus.nops + 9 + 1,
                 written := standbyState.bus.written ++
                   (sampleProgram.common.take 9).map
                     (fun r => (r.address, 1, r.val % 256)) } }) :=
  (start_failure_rolls_back (fun n => n == 9) sampleProgram false 0
      standbyState rfl).2 9 (by decide) rfl (by decide) (by decide)

/-- C2 counterexample: with the common block already written and a bus
failing exactly on the first defect-pixel-correction write (transaction
2 here), `setStreaming(true)` still returns 0, enters streaming and
never powers off; the same holds for a failure on the first
trigger-mode write (transaction 5). -/
theorem dpc_trigger_failures_ignored :
    ((imx477_set_stream (fun n => n == 2) sampleProgram false 0
        commonDoneState true).1 = 0 ∧
     (imx477_set_stream (fun n => n == 2) sampleProgram false 0
        commonDoneState true).2.streaming = true ∧
     (imx477_set_stream (fun n => n == 2) sampleProgram false 0
        commonDoneState true).2.powerOffs = 0) ∧
    ((imx477_set_stream (fun n => n == 5) sampleProgram false 0
        commonDoneState true).1 = 0 ∧
     (imx477_set_stream (fun n => n == 5) sampleProgram false 0
        commonDoneState true).2.streaming = true ∧
     (imx477_set_stream (fun n => n == 5) sampleProgram false 0
        commonDoneState true).2.powerOffs = 0) := by
  decide

end IMX477
